import Mathlib

/-!
Verification development for the `CPP_ProceduralGeneration` repository
(`ProceduralCityGenerator`, `ProceduralTerrainGenerator`,
`ProceduralWeaponGenerator`).

Embedding conventions:
* C++ `float` values are modelled as `ℚ`.  The repository's float arithmetic
  consists of field operations and comparisons on small literals; rounding of
  IEEE floats is not modelled.  Decimal literals are read at their exact
  decimal value.
* C++ `int32` values are modelled as `Int`.  Where the engine random stream
  wraps its 32-bit state, the wrap is made explicit with `% 2^32`.
* `FRandomStream` (Unreal engine code, not part of this repository's sources)
  is modelled from the spec, §4.1: a deterministic stream that is a pure
  function of its integer key.  A concrete LCG is used so that every
  definition is executable.
* `FMath::Rand` / `FMath::FRand` / `FMath::RandRange` use process-global
  random state owned by the C runtime, outside the repository.  They are
  modelled as an ambient, otherwise unconstrained sequence of raw draws
  (`env : Nat → Nat`, values reduced into `[0, 32767]`) together with a
  cursor that advances with every draw.
* `FMath::Cos` / `FMath::Sin` composed with `FMath::DegreesToRadians` are
  transcendental and have no exact `ℚ` representation; the composition
  `Cos (DegreesToRadians d)` is abstracted as a function parameter
  (`Trig.cosDeg d`), and likewise for `Sin`.
-/

/-! ## Seeded stream (spec §4.1) -/

/-- Modelled from the spec: the 32-bit state update of the engine's
`FRandomStream` (engine code, not in the repository sources).  The two's
complement wrap of the `int32` multiply-add is written explicitly as
`% 2^32`. -/
def mutateSeed (s : Nat) : Nat :=
  (s * 196314165 + 907633515) % 4294967296

/-- Modelled from the spec: a seeded stream, a pure function of its integer
key (spec §4.1 determinism contract). -/
structure RStream where
  seed : Nat

/-- Modelled from the spec: build a stream from an `int32` seed; the signed
seed is reduced to its 32-bit pattern. -/
def RStream.init (s : Int) : RStream :=
  ⟨(s % 4294967296).toNat⟩

/-- Modelled from the spec: one uniform draw in `[0,1)`, a dyadic rational
built from the top 23 bits of the mutated state, together with the advanced
stream. -/
def RStream.frand (r : RStream) : ℚ × RStream :=
  let s := mutateSeed r.seed
  (((s >>> 9 : Nat) : ℚ) / 8388608, ⟨s⟩)

/-- Modelled from the spec: `FRandRange(lo, hi) = lo + (hi - lo) * frand`. -/
def RStream.frandRange (r : RStream) (lo hi : ℚ) : ℚ × RStream :=
  let p := r.frand
  (lo + (hi - lo) * p.1, p.2)

/-- Modelled from the spec: `RandRange(lo, hi)` returns an integer in
`[lo, hi]` (for `lo ≤ hi`), derived from a single fractional draw; for an
empty range no draw is consumed and `lo` is returned. -/
def RStream.randRange (r : RStream) (lo hi : Int) : Int × RStream :=
  if lo ≤ hi then
    let p := r.frand
    (lo + min ⌊p.1 * ((hi : ℚ) - (lo : ℚ) + 1)⌋ (hi - lo), p.2)
  else (lo, r)

/-! ## Global (unseeded) engine random state -/

/-- The process-global random state used by `FMath::Rand` / `FMath::FRand` /
`FMath::RandRange`.  It lives outside the repository, so it is modelled as an
ambient sequence of raw draws (`env`, reduced into `[0, 32767]`) plus a
cursor that advances with every draw. -/
structure GRand where
  env : Nat → Nat
  cur : Nat

/-- `FMath::Rand()`: one raw draw in `[0, 32767]`, advancing the cursor. -/
def GRand.rand (g : GRand) : Nat × GRand :=
  (g.env g.cur % 32768, ⟨g.env, g.cur + 1⟩)

/-- `FMath::FRand()`: a raw draw scaled into `[0, 1]`. -/
def GRand.frand (g : GRand) : ℚ × GRand :=
  let p := g.rand
  ((p.1 : ℚ) / 32767, p.2)

/-- `FMath::RandRange(lo, hi)`: an integer in `[lo, hi]` (for `lo ≤ hi`)
derived from a single fractional draw. -/
def GRand.randRange (g : GRand) (lo hi : Int) : Int × GRand :=
  if lo ≤ hi then
    let p := g.frand
    (lo + min ⌊p.1 * ((hi : ℚ) - (lo : ℚ) + 1)⌋ (hi - lo), p.2)
  else (lo, g)

/-- Truncation toward zero, the semantics of a C++ `static_cast<int32>` on a
non-NaN value. -/
def truncQ (q : ℚ) : Int :=
  if 0 ≤ q then ⌊q⌋ else -⌊-q⌋

/-! ## Weapon pipeline (`ProceduralWeaponGenerator.h` / `.cpp`) -/

/-- `EWeaponType` (10 values, underlying `uint8` 0–9). -/
inductive WeaponType
  | sword
  | bow
  | staff
  | hammer
  | spear
  | dagger
  | rifle
  | pistol
  | wand
  | axe
  deriving DecidableEq

/-- `EWeaponRarity` (5 values, underlying `uint8` 0–4). -/
inductive WeaponRarity
  | common
  | uncommon
  | rare
  | epic
  | legendary
  deriving DecidableEq

/-- `EElementalType` (8 values, underlying `uint8` 0–7). -/
inductive ElementalType
  | fire
  | ice
  | lightning
  | nature
  | holy
  | dark
  | pure
  | chaos
  deriving DecidableEq

/-- `static_cast<int32>(Rarity)`: the underlying enum value. -/
def rarityRank : WeaponRarity → Int
  | .common => 0
  | .uncommon => 1
  | .rare => 2
  | .epic => 3
  | .legendary => 4

/-- `static_cast<EElementalType>(i)` for a value drawn in `[0, 7]`. -/
def elementOfInt (i : Int) : ElementalType :=
  match i.toNat with
  | 0 => .fire
  | 1 => .ice
  | 2 => .lightning
  | 3 => .nature
  | 4 => .holy
  | 5 => .dark
  | 6 => .pure
  | _ => .chaos

/-- `static_cast<EWeaponType>(i)` for a value drawn in `[0, 9]`. -/
def weaponTypeOfInt (i : Int) : WeaponType :=
  match i.toNat with
  | 0 => .sword
  | 1 => .bow
  | 2 => .staff
  | 3 => .hammer
  | 4 => .spear
  | 5 => .dagger
  | 6 => .rifle
  | 7 => .pistol
  | 8 => .wand
  | _ => .axe

/-- `FWeaponStat`, with the header's field defaults. -/
structure WeaponStat where
  damage : ℚ := 10
  criticalChance : ℚ := 0.05
  criticalDamage : ℚ := 1.5
  attackSpeed : ℚ := 1
  range : ℚ := 100
  specialAbilityPower : ℚ := 0
  deriving DecidableEq

/-- `FWeapon`, with the header's field defaults. -/
structure Weapon where
  weaponId : String := ""
  weaponName : String := ""
  type : WeaponType := .sword
  rarity : WeaponRarity := .common
  element : ElementalType := .pure
  stats : WeaponStat := {}
  requiredLevel : Int := 1
  enchantments : List String := []
  weight : ℚ := 10
  description : String := ""
  goldValue : Int := 100
  bIsUnique : Bool := false
  deriving DecidableEq

/-- The generator's caller-supplied properties
(`RandomSeed`, `MaxEnchantments`, `LegendaryChance`, `EpicChance`,
`RareChance`), with the header's defaults. -/
structure WeaponConfig where
  randomSeed : Int := 999
  maxEnchantments : Int := 3
  legendaryChance : ℚ := 0.01
  epicChance : ℚ := 0.05
  rareChance : ℚ := 0.15

/-- The classification body of `AProceduralWeaponGenerator::DetermineRarity`:
the draw `random` is checked against the cumulative thresholds in source
order (the draw itself comes from the global `FMath::FRand()`). -/
def determineRarity (random legendaryChance epicChance rareChance : ℚ) :
    WeaponRarity :=
  if random < legendaryChance then .legendary
  else if random < legendaryChance + epicChance then .epic
  else if random < legendaryChance + epicChance + rareChance then .rare
  else if random < 0.4 then .uncommon
  else .common

/-- `AProceduralWeaponGenerator::DetermineRarity`: draws from the global
random state and classifies. -/
def determineRarityDraw (cfg : WeaponConfig) (g : GRand) : WeaponRarity × GRand :=
  let p := g.frand
  (determineRarity p.1 cfg.legendaryChance cfg.epicChance cfg.rareChance, p.2)

/-- `AProceduralWeaponGenerator::CalculateWeaponStats`.  The seeded stream
created at the top of the function is never drawn from, so it is omitted.
Each case overwrites some fields of the (default-initialised) stats; the
final line adds the rarity bonus to the critical chance. -/
def calculateWeaponStats (w : Weapon) (level : Int) : Weapon :=
  let levelMultiplier : ℚ := 1 + (level : ℚ) * 0.1
  let rarityMultiplier : ℚ := 1 + (rarityRank w.rarity : ℚ) * 0.3
  let w1 :=
    match w.type with
    | .sword =>
        { w with
          stats :=
            { w.stats with
              damage := 25 * levelMultiplier * rarityMultiplier
              attackSpeed := 1
              range := 200 }
          weight := 15 }
    | .bow =>
        { w with
          stats :=
            { w.stats with
              damage := 20 * levelMultiplier * rarityMultiplier
              attackSpeed := 1.2
              range := 1000 }
          weight := 5 }
    | .staff =>
        { w with
          stats :=
            { w.stats with
              damage := 15 * levelMultiplier * rarityMultiplier
              specialAbilityPower := 30 * rarityMultiplier
              range := 500 }
          weight := 8 }
    | .hammer =>
        { w with
          stats :=
            { w.stats with
              damage := 35 * levelMultiplier * rarityMultiplier
              attackSpeed := 0.7
              criticalDamage := 2
              range := 150 }
          weight := 25 }
    | .spear =>
        { w with
          stats :=
            { w.stats with
              damage := 22 * levelMultiplier * rarityMultiplier
              attackSpeed := 1.1
              range := 300 }
          weight := 12 }
    | .dagger =>
        { w with
          stats :=
            { w.stats with
              damage := 15 * levelMultiplier * rarityMultiplier
              attackSpeed := 1.5
              criticalChance := 0.2
              range := 100 }
          weight := 3 }
    | .rifle =>
        { w with
          stats :=
            { w.stats with
              damage := 30 * levelMultiplier * rarityMultiplier
              attackSpeed := 0.9
              range := 2000 }
          weight := 7 }
    | .pistol =>
        { w with
          stats :=
            { w.stats with
              damage := 18 * levelMultiplier * rarityMultiplier
              attackSpeed := 1.3
              range := 800 }
          weight := 4 }
    | .wand =>
        { w with
          stats :=
            { w.stats with
              damage := 12 * levelMultiplier * rarityMultiplier
              specialAbilityPower := 40 * rarityMultiplier
              range := 600 }
          weight := 2 }
    | .axe =>
        { w with
          stats :=
            { w.stats with
              damage := 32 * levelMultiplier * rarityMultiplier
              attackSpeed := 0.8
              range := 180 }
          weight := 20 }
  { w1 with
    stats :=
      { w1.stats with
        criticalChance := w1.stats.criticalChance + (rarityRank w.rarity : ℚ) * 0.02 } }

/-- `AProceduralWeaponGenerator::GenerateWeaponName`.  Note the source
always concatenates a single space between the element adjective and the
type noun. -/
def generateWeaponName (type : WeaponType) (rarity : WeaponRarity)
    (element : ElementalType) : String :=
  let elementName :=
    match element with
    | .fire => "Flaming"
    | .ice => "Frozen"
    | .lightning => "Thundering"
    | .nature => "Natural"
    | .holy => "Holy"
    | .dark => "Dark"
    | _ => ""
  let typeName :=
    match type with
    | .sword => "Sword"
    | .bow => "Bow"
    | .staff => "Staff"
    | .hammer => "Hammer"
    | .spear => "Spear"
    | .dagger => "Dagger"
    | .rifle => "Rifle"
    | .pistol => "Pistol"
    | .wand => "Wand"
    | .axe => "Axe"
  let rarityPfx :=
    match rarity with
    | .legendary => "Legendary "
    | .epic => "Epic "
    | .rare => "Rare "
    | .uncommon => ""
    | .common => ""
  rarityPfx ++ elementName ++ " " ++ typeName

/-- The fixed enchantment name pool set up by
`AProceduralWeaponGenerator::InitializeEnchantmentLibrary` (run once in
`BeginPlay`, before any generation call). -/
def enchantmentLibrary : List String :=
  ["Burning", "Freezing", "Shocking", "Poisoned", "Blessed", "Cursed",
   "Enchanted", "Sharpened", "Reinforced", "Ethereal", "Timeless", "Wise",
   "Mighty", "Swift", "Resilient"]

/-- `AProceduralWeaponGenerator::AddEnchantment`.  Returns unchanged when the
weapon already carries `MaxEnchantments` enchantments; otherwise draws a
library index from the global random state and appends the entry (the
`Element` parameter is unused in the source). -/
def addEnchantment (maxEnchantments : Int) (weapon : Weapon)
    (_element : ElementalType) (g : GRand) : Weapon × GRand :=
  if (weapon.enchantments.length : Int) ≥ maxEnchantments then (weapon, g)
  else
    let p := g.randRange 0 ((enchantmentLibrary.length : Int) - 1)
    if 0 ≤ p.1 ∧ p.1 < (enchantmentLibrary.length : Int) then
      ({ weapon with
         enchantments := weapon.enchantments ++ [enchantmentLibrary.getD p.1.toNat ""] },
       p.2)
    else (weapon, p.2)

/-- The per-rarity enchantment count of the `switch` in
`AProceduralWeaponGenerator::GenerateWeapon`. -/
def numEnchantmentsFor : WeaponRarity → Int
  | .legendary => 4
  | .epic => 3
  | .rare => 2
  | .uncommon => 1
  | .common => 0

/-- The enchantment loop of `GenerateWeapon`
(`for i = 0; i < NumEnchantments && i < MaxEnchantments; i++`), with the
iteration count resolved to `max 0 (min NumEnchantments MaxEnchantments)` at
the call site. -/
def enchantLoop (maxEnchantments : Int) (element : ElementalType) :
    Nat → Weapon × GRand → Weapon × GRand
  | 0, wg => wg
  | n + 1, wg => enchantLoop maxEnchantments element n
      (addEnchantment maxEnchantments wg.1 element wg.2)

/-- `AProceduralWeaponGenerator::CalculateWeaponValue`. -/
def calculateWeaponValue (w : Weapon) : Int :=
  let baseValue : Int := 100
  let rarityValue : Int := rarityRank w.rarity * 200
  let statsValue : Int := truncQ (w.stats.damage * 5)
  let enchantmentValue : Int := (w.enchantments.length : Int) * 150
  baseValue + rarityValue + statsValue + enchantmentValue

/-- `AProceduralWeaponGenerator::GenerateWeapon`.  Global draws happen in
source order: `FMath::Rand()` for the id, `FMath::FRand()` inside
`DetermineRarity`, `FMath::RandRange(0,7)` for the element, then one
`FMath::RandRange(0,14)` per appended enchantment. -/
def generateWeapon (cfg : WeaponConfig) (type : WeaponType) (level : Int)
    (g : GRand) : Weapon × GRand :=
  let pid := g.rand
  let pr := determineRarityDraw cfg pid.2
  let pe := pr.2.randRange 0 7
  let w0 : Weapon :=
    { weaponId := "WPN_" ++ toString pid.1
      type := type
      rarity := pr.1
      requiredLevel := level
      element := elementOfInt pe.1
      weaponName := generateWeaponName type pr.1 (elementOfInt pe.1) }
  let w1 := calculateWeaponStats w0 level
  let n := (min (numEnchantmentsFor pr.1) cfg.maxEnchantments).toNat
  let we := enchantLoop cfg.maxEnchantments (elementOfInt pe.1) n (w1, pe.2)
  ({ we.1 with goldValue := calculateWeaponValue we.1 }, we.2)

/-- `AProceduralWeaponGenerator::GenerateRandomWeapon`: a uniformly drawn
type, then `GenerateWeapon`. -/
def generateRandomWeapon (cfg : WeaponConfig) (level : Int) (g : GRand) :
    Weapon × GRand :=
  let pt := g.randRange 0 9
  generateWeapon cfg (weaponTypeOfInt pt.1) level pt.2

/-! ## Terrain pipeline (`ProceduralTerrainGenerator.h` / `.cpp`) -/

/-- `EBiomeType` (8 values). -/
inductive BiomeType
  | plains
  | forest
  | desert
  | mountain
  | tundra
  | volcanic
  | jungle
  | ocean
  deriving DecidableEq

/-- `FTerrainCell`, with the header's field defaults. -/
structure TerrainCell where
  height : ℚ := 0
  moisture : ℚ := 0
  temperature : ℚ := 0.5
  biomeType : BiomeType := .plains
  objects : List String := []
  bWalkable : Bool := true
  deriving DecidableEq

/-- The terrain generator's caller-supplied properties, with the header's
defaults (`NoiseScale` and `NoiseFrequency` are declared but never read by
the generation code). -/
structure TerrainConfig where
  terrainWidth : Int := 256
  terrainHeight : Int := 256
  cellSize : ℚ := 100
  noiseOctaves : Int := 4
  noisePersistence : ℚ := 0.5
  randomSeed : Int := 12345
  treeDensity : ℚ := 0.3
  rockDensity : ℚ := 0.2
  bushDensity : ℚ := 0.25

/-- The octave loop of `AProceduralTerrainGenerator::GetPerlinNoise`:
accumulates `Value += FRand * Amplitude` and `MaxValue += Amplitude`, with
`Amplitude *= NoisePersistence` each octave (the `Frequency` variable is
updated but never read). -/
def noiseOctaveLoop (persistence : ℚ) :
    Nat → RStream → ℚ → ℚ × ℚ → ℚ × ℚ
  | 0, _, _, acc => acc
  | n + 1, rs, amplitude, acc =>
      let p := rs.frand
      noiseOctaveLoop persistence n p.2 (amplitude * persistence)
        (acc.1 + p.1 * amplitude, acc.2 + amplitude)

/-- `AProceduralTerrainGenerator::GetPerlinNoise(X, Y, Seed)`: a fresh
seeded stream keyed by `Seed + int32(X + Y*1000)` (call sites pass integer
cell coordinates), then the normalised octave sum `Value / MaxValue`.
For `NoiseOctaves ≤ 0` the C++ computes `0.0/0.0`; in `ℚ` this is `0`. -/
def getPerlinNoise (cfg : TerrainConfig) (x y : Int) : ℚ :=
  let rs := RStream.init (cfg.randomSeed + (x + y * 1000))
  let r := noiseOctaveLoop cfg.noisePersistence cfg.noiseOctaves.toNat rs 1 (0, 0)
  r.1 / r.2

/-- `FMath::Clamp(v, 0, 1)`. -/
def clamp01 (v : ℚ) : ℚ :=
  min (max v 0) 1

/-- `AProceduralTerrainGenerator::DetermineBiome`: the ordered decision
list, first matching rule wins. -/
def determineBiome (height moisture temperature : ℚ) : BiomeType :=
  if height < -0.3 then .ocean
  else if height > 0.7 then .mountain
  else if temperature < 0.2 then .tundra
  else if temperature > 0.8 ∧ moisture > 0.6 then .jungle
  else if temperature > 0.8 ∧ moisture < 0.3 then .desert
  else if height > 0.4 ∧ moisture > 0.5 then .forest
  else if temperature > 0.6 ∧ height > 0.5 then .volcanic
  else .plains

/-- The cell constructed by the fill loop of
`AProceduralTerrainGenerator::GenerateTerrain` for coordinate `(x, y)`:
height from `GetPerlinNoise(X, Y, RandomSeed)`, moisture `m` from the global
`FMath::FRand()` draw, temperature clamped from the height, biome from the
decision list, `bWalkable = Height > -0.3`. -/
def terrainCellAt (cfg : TerrainConfig) (x y : Int) (m : ℚ) : TerrainCell :=
  let h := getPerlinNoise cfg x y
  let temp := clamp01 (0.5 + h * 0.5)
  { height := h
    moisture := m
    temperature := temp
    biomeType := determineBiome h m temp
    objects := []
    bWalkable := decide (h > -0.3) }

/-- `AProceduralTerrainGenerator::GenerateHeightMap`: overwrites each cell's
height with a global `FMath::FRand()*2 - 1` draw.  In `GenerateTerrain` it
runs right after the grid was emptied, so it touches no cells and consumes
no draws there. -/
def generateHeightMap : GRand → List TerrainCell → List TerrainCell × GRand
  | g, [] => ([], g)
  | g, c :: rest =>
      let p := g.frand
      let r := generateHeightMap p.2 rest
      ({ c with height := p.1 * 2 - 1 } :: r.1, r.2)

/-- `AProceduralTerrainGenerator::GenerateMoistureMap`: per cell,
`Moisture = max 0 (1 - Height * 0.5)`.  In `GenerateTerrain` it runs on the
just-emptied grid, so it is a no-op there. -/
def generateMoistureMap (grid : List TerrainCell) : List TerrainCell :=
  grid.map fun c => { c with moisture := max 0 (1 - c.height * 0.5) }

/-- `AProceduralTerrainGenerator::GenerateTemperatureMap`: per cell at flat
index `i`, `LatitudeFactor = float(i / TerrainHeight) / TerrainHeight` (the
inner division is `int32` division), then the clamped temperature.  In
`GenerateTerrain` it runs on the just-emptied grid, so it is a no-op
there. -/
def generateTemperatureMap (cfg : TerrainConfig) (grid : List TerrainCell) :
    List TerrainCell :=
  ((List.range grid.length).zip grid).map fun p =>
    let lat : ℚ := ((((p.1 : Int) / cfg.terrainHeight : Int) : ℚ) / (cfg.terrainHeight : ℚ))
    { p.2 with temperature := clamp01 (0.5 + p.2.height * 0.3 - lat * 0.4) }

/-- The inner `Y` loop of the fill stage of `GenerateTerrain`: appends one
cell per `y` in source order, threading the global random state (one
moisture draw per cell). -/
def fillColumn (cfg : TerrainConfig) (x : Int) :
    Nat → Int → GRand → List TerrainCell × GRand
  | 0, _, g => ([], g)
  | n + 1, y, g =>
      let p := g.frand
      let cell := terrainCellAt cfg x y p.1
      let r := fillColumn cfg x n (y + 1) p.2
      (cell :: r.1, r.2)

/-- The outer `X` loop of the fill stage of `GenerateTerrain`: for each `x`
appends the whole column of `TerrainHeight` cells (so the grid is stored
column-major: `x` outer, `y` inner). -/
def fillGrid (cfg : TerrainConfig) :
    Nat → Int → GRand → List TerrainCell × GRand
  | 0, _, g => ([], g)
  | n + 1, x, g =>
      let c := fillColumn cfg x cfg.terrainHeight.toNat 0 g
      let r := fillGrid cfg n (x + 1) c.2
      (c.1 ++ r.1, r.2)

/-- `AProceduralTerrainGenerator::GenerateTerrain`: empties the grid (the
seeded stream constructed at the top is never drawn from), runs the three
derived-map passes on the now-empty grid, then fills the grid with the
`X`-outer / `Y`-inner double loop. -/
def generateTerrain (cfg : TerrainConfig) (g : GRand) :
    List TerrainCell × GRand :=
  let e0 := generateHeightMap g []
  let base := generateTemperatureMap cfg (generateMoistureMap e0.1)
  let f := fillGrid cfg cfg.terrainWidth.toNat 0 e0.2
  (base ++ f.1, f.2)

/-- The coordinates `GenerateVegetation` computes from a flat index
(`CellX = i % TerrainWidth`, `CellY = i / TerrainWidth`, a row-major
decoding); they feed only the `Location` local, which the function never
uses afterwards. -/
def vegetationCellCoord (cfg : TerrainConfig) (i : Nat) : Int × Int :=
  ((i : Int) % cfg.terrainWidth, (i : Int) / cfg.terrainWidth)

/-- The per-cell body of `AProceduralTerrainGenerator::GenerateVegetation`:
unwalkable cells are skipped (consuming no draws); a tree roll happens only
in Forest/Jungle biomes; rock and bush rolls happen for every walkable
cell.  Rolls draw from the seeded stream created by `GenerateVegetation`. -/
def vegetationCell (cfg : TerrainConfig) (c : TerrainCell) (rs : RStream) :
    TerrainCell × RStream :=
  if c.bWalkable = false then (c, rs)
  else
    let s1 :=
      if c.biomeType = .forest ∨ c.biomeType = .jungle then
        let p := rs.frand
        (if p.1 < cfg.treeDensity then { c with objects := c.objects ++ ["tree"] } else c, p.2)
      else (c, rs)
    let p2 := s1.2.frand
    let c2 :=
      if p2.1 < cfg.rockDensity then { s1.1 with objects := s1.1.objects ++ ["rock"] }
      else s1.1
    let p3 := p2.2.frand
    let c3 :=
      if p3.1 < cfg.bushDensity then { c2 with objects := c2.objects ++ ["bush"] }
      else c2
    (c3, p3.2)

/-- The grid traversal of `GenerateVegetation`, threading the seeded
stream through the cells in order. -/
def vegetationLoop (cfg : TerrainConfig) :
    List TerrainCell → RStream → List TerrainCell × RStream
  | [], rs => ([], rs)
  | c :: rest, rs =>
      let p := vegetationCell cfg c rs
      let r := vegetationLoop cfg rest p.2
      (p.1 :: r.1, r.2)

/-- `AProceduralTerrainGenerator::GenerateVegetation`: a fresh seeded
stream keyed by `RandomSeed`, then the per-cell rolls (`ClearTerrain` only
destroys spawned visual actors and does not touch the grid). -/
def generateVegetation (cfg : TerrainConfig) (grid : List TerrainCell) :
    List TerrainCell :=
  (vegetationLoop cfg grid (RStream.init cfg.randomSeed)).1

/-! ## City pipeline (`ProceduralCityGenerator.h` / `.cpp`) -/

/-- `FVector`, restricted to the fields the generator uses. -/
structure Vec3 where
  x : ℚ
  y : ℚ
  z : ℚ
  deriving DecidableEq

/-- Componentwise vector addition. -/
def Vec3.add (a b : Vec3) : Vec3 :=
  ⟨a.x + b.x, a.y + b.y, a.z + b.z⟩

/-- Squared Euclidean distance.  `FVector::Dist` is the (irrational) square
root of this; comparisons of the distance against a non-negative bound `k`
are rendered as `distSq < k^2`, which is equivalent. -/
def distSq (a b : Vec3) : ℚ :=
  (a.x - b.x) ^ 2 + (a.y - b.y) ^ 2 + (a.z - b.z) ^ 2

/-- `EBuildingType` (9 values, underlying `uint8` 0–8). -/
inductive BuildingType
  | residential
  | commercial
  | industrial
  | government
  | religious
  | military
  | educational
  | entertainment
  | infrastructure
  deriving DecidableEq

/-- `static_cast<EBuildingType>(i)` for a value drawn in `[0, 8]`. -/
def buildingTypeOfInt (i : Int) : BuildingType :=
  match i.toNat with
  | 0 => .residential
  | 1 => .commercial
  | 2 => .industrial
  | 3 => .government
  | 4 => .religious
  | 5 => .military
  | 6 => .educational
  | 7 => .entertainment
  | _ => .infrastructure

/-- `FBuilding`, with the header's field defaults. -/
structure Building where
  buildingId : String := ""
  location : Vec3 := ⟨0, 0, 0⟩
  size : Vec3 := ⟨0, 0, 0⟩
  buildingType : BuildingType := .residential
  floors : Int := 1
  material : String := ""
  rotation : ℚ := 0
  bHasGarden : Bool := false
  population : Int := 0
  deriving DecidableEq

/-- `FRoad`, with the header's field defaults. -/
structure Road where
  startPoint : Vec3 := ⟨0, 0, 0⟩
  endPoint : Vec3 := ⟨0, 0, 0⟩
  width : ℚ := 10
  roadType : String := ""
  deriving DecidableEq

/-- `FDistrict`, with the header's field defaults. -/
structure District where
  districtName : String := ""
  center : Vec3 := ⟨0, 0, 0⟩
  radius : ℚ := 500
  buildings : List Building := []
  population : Int := 0
  districtType : String := ""
  deriving DecidableEq

/-- The city generator's caller-supplied properties, with the header's
defaults, plus the actor's world location (`GetActorLocation()`). -/
structure CityConfig where
  cityName : String := "ProceduralCity"
  cityPopulation : Int := 100000
  cityRadius : ℚ := 5000
  numberOfDistricts : Int := 8
  buildingsPerDistrict : Int := 50
  buildingDensity : ℚ := 0.6
  randomSeed : Int := 42
  actorLocation : Vec3 := ⟨0, 0, 0⟩

/-- Modelled from the spec: `FMath::Cos`/`FMath::Sin` composed with
`FMath::DegreesToRadians` are engine transcendental math with no exact `ℚ`
values, so `Cos (DegreesToRadians d)` is abstracted as `cosDeg d` (and
likewise `sinDeg`); the generators are parameterised by this
interpretation. -/
structure Trig where
  cosDeg : ℚ → ℚ
  sinDeg : ℚ → ℚ

/-- The `switch` of `GenerateDistricts` mapping the `RandRange(0,3)` draw to
a district type string. -/
def districtTypeOfInt (i : Int) : String :=
  match i.toNat with
  | 0 => "residential"
  | 1 => "commercial"
  | 2 => "industrial"
  | _ => "mixed"

/-- The loop body of `AProceduralCityGenerator::GenerateDistricts`: district
`i` is placed at angle `i * (360/N)` degrees, distance `0.6 * CityRadius`
from the actor; one shared-stream draw picks the type.  The
`CreateDistrict(i)` call is a no-op: at that point `Districts` holds only
`i` elements, so `Districts.IsValidIndex(i)` is false. -/
def generateDistrictsLoop (t : Trig) (cfg : CityConfig) (angleBetween : ℚ) :
    Nat → Int → RStream → List District
  | 0, _, _ => []
  | n + 1, i, rs =>
      let angle := (i : ℚ) * angleBetween
      let distanceFromCenter := cfg.cityRadius * 0.6
      let center := cfg.actorLocation.add
        ⟨t.cosDeg angle * distanceFromCenter, t.sinDeg angle * distanceFromCenter, 0⟩
      let p := rs.randRange 0 3
      let d : District :=
        { districtName := "District_" ++ toString i
          center := center
          radius := cfg.cityRadius / ((cfg.numberOfDistricts : ℚ) * 0.5)
          buildings := []
          population := cfg.cityPopulation / cfg.numberOfDistricts
          districtType := districtTypeOfInt p.1 }
      d :: generateDistrictsLoop t cfg angleBetween n (i + 1) p.2

/-- `AProceduralCityGenerator::GenerateDistricts`: a fresh seeded stream
keyed by `RandomSeed`, then the district loop. -/
def generateDistricts (t : Trig) (cfg : CityConfig) : List District :=
  generateDistrictsLoop t cfg (360 / (cfg.numberOfDistricts : ℚ))
    cfg.numberOfDistricts.toNat 0 (RStream.init cfg.randomSeed)

/-- `AProceduralCityGenerator::GenerateRoadNetwork`: one "main" road from
district `i` to district `(i+1) % N` and one "secondary" road from district
`i` to the actor location, per district, in loop order.  The seeded stream
constructed at the top (`RandomSeed + 1`) is never drawn from. -/
def generateRoadNetwork (cfg : CityConfig) (ds : List District) : List Road :=
  let dflt : District := {}
  (List.range ds.length).foldr
    (fun i acc =>
      { startPoint := (ds.getD i dflt).center
        endPoint := (ds.getD ((i + 1) % ds.length) dflt).center
        roadType := "main"
        width := 25 } ::
      { startPoint := (ds.getD i dflt).center
        endPoint := cfg.actorLocation
        roadType := "secondary"
        width := 15 } :: acc)
    []

/-- `AProceduralCityGenerator::GenerateRandomLocationInDistrict`: a FRESH
seeded stream keyed by the constant `RandomSeed + 3` on every call, two
draws from it (angle, then distance within `0.8 * Radius`), and a polar
offset from the district's center. -/
def generateRandomLocationInDistrict (t : Trig) (seed : Int) (d : District) :
    Vec3 :=
  let rs := RStream.init (seed + 3)
  let p1 := rs.frand
  let randomAngle := p1.1 * 360
  let p2 := p1.2.frand
  let randomDistance := p2.1 * d.radius * 0.8
  d.center.add
    ⟨t.cosDeg randomAngle * randomDistance, t.sinDeg randomAngle * randomDistance, 0⟩

/-- `AProceduralCityGenerator::GenerateBuilding`: a fresh seeded stream
keyed by `RandomSeed + DistrictIndex * 100`; id, rotation and population
draws, then type-specific size/floors/material.  C++ leaves the evaluation
order of the three `FVector` constructor arguments unspecified; they are
modelled left to right. -/
def generateBuilding (seed : Int) (type : BuildingType) (location : Vec3)
    (districtIndex : Int) : Building :=
  let rs := RStream.init (seed + districtIndex * 100)
  let pid := rs.randRange 10000 99999
  let prot := pid.2.frand
  let ppop := prot.2.randRange 10 500
  let base : Building :=
    { buildingId := "Building_" ++ toString pid.1
      location := location
      buildingType := type
      rotation := prot.1 * 360
      population := ppop.1 }
  match type with
  | .residential =>
      let s1 := ppop.2.frandRange 20 50
      let s2 := s1.2.frandRange 20 50
      let s3 := s2.2.frandRange 30 100
      let pf := s3.2.randRange 1 5
      { base with size := ⟨s1.1, s2.1, s3.1⟩, floors := pf.1, material := "Brick" }
  | .commercial =>
      let s1 := ppop.2.frandRange 50 100
      let s2 := s1.2.frandRange 50 100
      let s3 := s2.2.frandRange 50 150
      let pf := s3.2.randRange 3 10
      { base with size := ⟨s1.1, s2.1, s3.1⟩, floors := pf.1, material := "Glass" }
  | .industrial =>
      let s1 := ppop.2.frandRange 100 200
      let s2 := s1.2.frandRange 100 200
      let s3 := s2.2.frandRange 30 80
      { base with size := ⟨s1.1, s2.1, s3.1⟩, floors := 1, material := "Concrete" }
  | .government =>
      let s1 := ppop.2.frandRange 80 120
      let s2 := s1.2.frandRange 80 120
      let s3 := s2.2.frandRange 80 200
      let pf := s3.2.randRange 5 8
      { base with size := ⟨s1.1, s2.1, s3.1⟩, floors := pf.1, material := "Marble" }
  | _ =>
      let s1 := ppop.2.frandRange 30 60
      let s2 := s1.2.frandRange 30 60
      let s3 := s2.2.frandRange 40 120
      let pf := s3.2.randRange 2 6
      { base with size := ⟨s1.1, s2.1, s3.1⟩, floors := pf.1, material := "Mixed" }

/-- The per-district attempt loop of
`AProceduralCityGenerator::PopulateDistricts`: each attempt draws a density
roll from the shared stream (`FRand() > BuildingDensity` skips); a kept
attempt places the building at `GenerateRandomLocationInDistrict(District)`,
forces the type for residential/commercial/industrial districts (other
districts draw `RandRange(0,8)` from the shared stream), and appends the
generated building. -/
def populateAttempts (t : Trig) (cfg : CityConfig) (districtIndex : Nat) :
    Nat → District → RStream → District × RStream
  | 0, d, rs => (d, rs)
  | j + 1, d, rs =>
      let p := rs.frand
      if p.1 > cfg.buildingDensity then
        populateAttempts t cfg districtIndex j d p.2
      else
        let loc := generateRandomLocationInDistrict t cfg.randomSeed d
        let tp :=
          if d.districtType = "residential" then (BuildingType.residential, p.2)
          else if d.districtType = "commercial" then (BuildingType.commercial, p.2)
          else if d.districtType = "industrial" then (BuildingType.industrial, p.2)
          else
            let q := p.2.randRange 0 8
            (buildingTypeOfInt q.1, q.2)
        let b := generateBuilding cfg.randomSeed tp.1 loc (districtIndex : Int)
        populateAttempts t cfg districtIndex j
          { d with buildings := d.buildings ++ [b] } tp.2

/-- The district loop of `PopulateDistricts`, threading the shared stream
left to right through the districts. -/
def populateDistrictsLoop (t : Trig) (cfg : CityConfig) :
    List District → Nat → RStream → List District
  | [], _, _ => []
  | d :: rest, i, rs =>
      let r := populateAttempts t cfg i cfg.buildingsPerDistrict.toNat d rs
      r.1 :: populateDistrictsLoop t cfg rest (i + 1) r.2

/-- `AProceduralCityGenerator::PopulateDistricts`: a fresh shared stream
keyed by `RandomSeed + 2`, then the district loop. -/
def populateDistricts (t : Trig) (cfg : CityConfig) (ds : List District) :
    List District :=
  populateDistrictsLoop t cfg ds 0 (RStream.init (cfg.randomSeed + 2))

/-- The entity graph produced by one `GenerateCity` call. -/
structure City where
  districts : List District
  roadNetwork : List Road
  deriving DecidableEq

/-- `AProceduralCityGenerator::GenerateCity`: clear, lay districts, build
the road network, populate. -/
def generateCity (t : Trig) (cfg : CityConfig) : City :=
  let ds := generateDistricts t cfg
  let roads := generateRoadNetwork cfg ds
  { districts := populateDistricts t cfg ds, roadNetwork := roads }

/-- `AProceduralCityGenerator::IsValidBuildingLocation`: defined in the
source but never invoked by any generation path.  The comparison
`Dist(Location, B.Location) < BuildingSize + max(B.Size.X, B.Size.Y)` is
rendered with squares (the source's bound is non-negative at every reachable
call with non-negative sizes). -/
def isValidBuildingLocation (ds : List District) (location : Vec3)
    (buildingSize : ℚ) : Bool :=
  ds.all fun d => d.buildings.all fun b =>
    ! decide (distSq location b.location < (buildingSize + max b.size.x b.size.y) ^ 2)

/-- The claim's overlap measure: half of a building's footprint extent,
taken as half the larger horizontal size component. -/
def halfFootprint (b : Building) : ℚ :=
  max b.size.x b.size.y / 2

/-- The claim's overlap predicate, "the distance between their centers is
less than the sum of their half-footprints", rendered with squares to stay
in `ℚ` (equivalent, both sides being non-negative). -/
abbrev buildingsOverlap (a b : Building) : Prop :=
  distSq a.location b.location < (halfFootprint a + halfFootprint b) ^ 2

/-! ## Shared concrete witnesses -/

/-- A concrete global random environment: every raw draw is `0`. -/
def genv0 : GRand := ⟨fun _ => 0, 0⟩

/-! ## Claim C5 — weapon name synthesis -/

/-- Claim C5, counterexample: for `(type = Dagger, rarity = Common,
element = Pure)` the source produces `" Dagger"`, with a leading space — not
`"Dagger"` — because the space before the type noun is emitted
unconditionally. -/
theorem C5_counterexample :
    ¬ generateWeaponName .dagger .common .pure = "Dagger" := by decide

/-- Claim C5, amended: `(Sword, Legendary, Fire)` yields
`"Legendary Flaming Sword"`; `(Dagger, Common, Pure)` yields `" Dagger"`
with a single leading space; an empty element adjective after a non-empty
rarity prefix yields a doubled space, as in `"Legendary  Sword"` — empty
rarity prefixes collapse cleanly, empty element adjectives do not. -/
theorem C5_name_synthesis :
    generateWeaponName .sword .legendary .fire = "Legendary Flaming Sword" ∧
    generateWeaponName .dagger .common .pure = " Dagger" ∧
    generateWeaponName .sword .legendary .pure = "Legendary  Sword" := by decide

/-! ## Claim C6 — rarity threshold bands -/

/-- Claim C6: `DetermineRarity` checks the draw against the cumulative
thresholds in source order — Legendary on `r < p_legendary`, Epic on
`r < p_legendary + p_epic`, Rare on `r < p_legendary + p_epic + p_rare`,
Uncommon on `r < 0.4`, else Common — so for non-negative per-tier chances
each tier's band is exactly the stated cumulative interval. -/
theorem C6_rarity_bands (r pL pE pR : ℚ) (hE : 0 ≤ pE) (hR : 0 ≤ pR) :
    (determineRarity r pL pE pR = .legendary ↔ r < pL) ∧
    (determineRarity r pL pE pR = .epic ↔ pL ≤ r ∧ r < pL + pE) ∧
    (determineRarity r pL pE pR = .rare ↔ pL + pE ≤ r ∧ r < pL + pE + pR) ∧
    (determineRarity r pL pE pR = .uncommon ↔ pL + pE + pR ≤ r ∧ r < 0.4) ∧
    (determineRarity r pL pE pR = .common ↔ pL + pE + pR ≤ r ∧ 0.4 ≤ r) := by
  unfold determineRarity
  split_ifs with h1 h2 h3 h4 <;>
    (try rw [not_lt] at h1) <;> (try rw [not_lt] at h2) <;>
    (try rw [not_lt] at h3) <;> (try rw [not_lt] at h4) <;>
    refine ⟨?_, ?_, ?_, ?_, ?_⟩ <;> constructor <;> intro hx <;>
    (try obtain ⟨hx1, hx2⟩ := hx) <;>
      first
        | rfl
        | exact absurd hx (by decide)
        | linarith
        | exact ⟨by linarith, by linarith⟩

/-- Witness for C6 at the header's default chances and a concrete draw. -/
theorem C6_rarity_bands_witness :
    (determineRarity 0.3 0.01 0.05 0.15 = .legendary ↔ (0.3 : ℚ) < 0.01) ∧
    (determineRarity 0.3 0.01 0.05 0.15 = .epic ↔ (0.01 : ℚ) ≤ 0.3 ∧ (0.3 : ℚ) < 0.01 + 0.05) ∧
    (determineRarity 0.3 0.01 0.05 0.15 = .rare ↔ (0.01 : ℚ) + 0.05 ≤ 0.3 ∧ (0.3 : ℚ) < 0.01 + 0.05 + 0.15) ∧
    (determineRarity 0.3 0.01 0.05 0.15 = .uncommon ↔ (0.01 : ℚ) + 0.05 + 0.15 ≤ 0.3 ∧ (0.3 : ℚ) < 0.4) ∧
    (determineRarity 0.3 0.01 0.05 0.15 = .common ↔ (0.01 : ℚ) + 0.05 + 0.15 ≤ 0.3 ∧ (0.4 : ℚ) ≤ 0.3) :=
  C6_rarity_bands 0.3 0.01 0.05 0.15 (by norm_num) (by norm_num)

/-! ## Claim C10 — AddEnchantment is a no-op at the cap -/

/-- Claim C10: when a weapon already carries at least `MaxEnchantments`
enchantments, `AddEnchantment` returns with the weapon (and the random
state) entirely unchanged: no field is modified and no enchantment is
appended. -/
theorem C10_addEnchantment_at_cap_noop (maxE : Int) (w : Weapon)
    (el : ElementalType) (g : GRand)
    (h : maxE ≤ (w.enchantments.length : Int)) :
    addEnchantment maxE w el g = (w, g) := by
  unfold addEnchantment
  rw [if_pos h]

/-- A concrete weapon carrying three enchantments, for the C10 witness. -/
def c10Weapon : Weapon :=
  { enchantments := ["Burning", "Swift", "Wise"] }

/-- Witness for C10 at a concrete weapon holding `MaxEnchantments = 3`
enchantments. -/
theorem C10_addEnchantment_at_cap_noop_witness :
    addEnchantment 3 c10Weapon .fire genv0 = (c10Weapon, genv0) :=
  C10_addEnchantment_at_cap_noop 3 c10Weapon .fire genv0 (by decide)

/-! ## Claim C1 — determinism of repeated runs -/

/-- A concrete global random environment whose eighth raw draw differs from
the first eight: draw 7 is `32767`, every other draw is `0`. -/
def c1Env : GRand := ⟨fun n => if n = 7 then 32767 else 0, 0⟩

/-- Claim C1 fails on the code: `GenerateWeapon` draws its rarity (and id,
element, enchantments) from the process-global `FMath` random state, not
from the seeded stream, so with the seed and configuration fixed (header
defaults) two consecutive runs return different weapons — the first run
consumes six global draws, leaving the second run's rarity draw at a
different point of the global sequence. -/
theorem C1_two_runs_differ :
    (generateWeapon {} .sword 1 c1Env).1.rarity = .legendary ∧
    (generateWeapon {} .sword 1 (generateWeapon {} .sword 1 c1Env).2).1.rarity
      = .common ∧
    (generateWeapon {} .sword 1 c1Env).1
      ≠ (generateWeapon {} .sword 1 (generateWeapon {} .sword 1 c1Env).2).1 :=
  of_decide_eq_true (by with_unfolding_all rfl)

/-! ## Claim C7 — configurations are not validated -/

/-- A malformed weapon configuration: the probability band sum
`0.5 + 0.05 + 0.15 = 0.7` exceeds `0.4`. -/
def c7Cfg : WeaponConfig :=
  { legendaryChance := 0.5, epicChance := 0.05, rareChance := 0.15 }

/-- Claim C7 fails on the code: no generator validates its configuration.
With a malformed probability band (sum `0.7 > 0.4`), `GenerateWeapon`
reports nothing and still produces a complete weapon entity (here with a
name and three enchantments). -/
theorem C7_no_validation :
    c7Cfg.legendaryChance + c7Cfg.epicChance + c7Cfg.rareChance > 0.4 ∧
    (generateWeapon c7Cfg .sword 1 genv0).1.weaponName
      = "Legendary Flaming Sword" ∧
    (generateWeapon c7Cfg .sword 1 genv0).1.enchantments.length = 3 :=
  of_decide_eq_true (by with_unfolding_all rfl)

/-! ## Claim C8 — enchantment count -/

/-- Helper: a global fractional draw is non-negative. -/
theorem grand_frand_nonneg (g : GRand) : 0 ≤ (g.frand).1 := by
  simp only [GRand.frand, GRand.rand]
  positivity

/-- Helper: `GRand.randRange lo hi` lands in `[lo, hi]` when `lo ≤ hi`. -/
theorem grand_randRange_mem (g : GRand) (lo hi : Int) (h : lo ≤ hi) :
    lo ≤ (g.randRange lo hi).1 ∧ (g.randRange lo hi).1 ≤ hi := by
  unfold GRand.randRange
  rw [if_pos h]
  show lo ≤ lo + min ⌊(g.frand).1 * ((hi : ℚ) - (lo : ℚ) + 1)⌋ (hi - lo) ∧
    lo + min ⌊(g.frand).1 * ((hi : ℚ) - (lo : ℚ) + 1)⌋ (hi - lo) ≤ hi
  constructor
  · have hf : (0 : ℚ) ≤ (g.frand).1 := grand_frand_nonneg g
    have hr : (0 : ℚ) ≤ (hi : ℚ) - (lo : ℚ) + 1 := by
      have : (lo : ℚ) ≤ (hi : ℚ) := by exact_mod_cast h
      linarith
    have h0 : (0 : Int) ≤ ⌊(g.frand).1 * ((hi : ℚ) - (lo : ℚ) + 1)⌋ :=
      Int.floor_nonneg.2 (mul_nonneg hf hr)
    have h1 : (0 : Int) ≤ hi - lo := by omega
    have := le_min h0 h1
    omega
  · have := min_le_right ⌊(g.frand).1 * ((hi : ℚ) - (lo : ℚ) + 1)⌋ (hi - lo)
    omega

/-- Helper: below the cap, `AddEnchantment` appends exactly one library
entry and keeps the rarity. -/
theorem addEnchantment_below_cap (maxE : Int) (w : Weapon)
    (el : ElementalType) (g : GRand)
    (h : (w.enchantments.length : Int) < maxE) :
    (addEnchantment maxE w el g).1.enchantments.length
      = w.enchantments.length + 1 ∧
    (addEnchantment maxE w el g).1.rarity = w.rarity := by
  have hb := grand_randRange_mem g 0 ((enchantmentLibrary.length : Int) - 1)
    (by decide)
  simp only [addEnchantment]
  split_ifs with h1 h2
  · exact absurd h (by omega)
  · constructor
    · simp
    · rfl
  · exact absurd ⟨hb.1, by omega⟩ h2

/-- Helper: the enchantment loop, run below the cap, appends one entry per
iteration and keeps the rarity. -/
theorem enchantLoop_spec (maxE : Int) (el : ElementalType) (n : Nat) :
    ∀ (w : Weapon) (g : GRand),
      (w.enchantments.length : Int) + n ≤ maxE →
      (enchantLoop maxE el n (w, g)).1.enchantments.length
        = w.enchantments.length + n ∧
      (enchantLoop maxE el n (w, g)).1.rarity = w.rarity := by
  induction n with
  | zero => intro w g _; exact ⟨rfl, rfl⟩
  | succ n ih =>
      intro w g h
      have hlt : (w.enchantments.length : Int) < maxE := by push_cast at h; omega
      obtain ⟨ha1, ha2⟩ := addEnchantment_below_cap maxE w el g hlt
      have hrec := ih (addEnchantment maxE w el g).1 (addEnchantment maxE w el g).2
        (by rw [ha1]; push_cast at h ⊢; omega)
      rw [Prod.mk.eta] at hrec
      simp only [enchantLoop]
      constructor
      · rw [hrec.1, ha1]
        omega
      · rw [hrec.2, ha2]

/-- Helper: the per-rarity enchantment count is non-negative. -/
theorem numEnchantmentsFor_nonneg (r : WeaponRarity) : 0 ≤ numEnchantmentsFor r := by
  cases r <;> decide

/-- Helper: `CalculateWeaponStats` touches only the stats and weight: the
enchantment list and the rarity pass through unchanged. -/
theorem calculateWeaponStats_preserves (w : Weapon) (level : Int) :
    (calculateWeaponStats w level).enchantments = w.enchantments ∧
    (calculateWeaponStats w level).rarity = w.rarity := by
  obtain ⟨a, b, ty, ra, el, st, lv, en, wt, de, gv, un⟩ := w
  cases ty <;> exact ⟨rfl, rfl⟩

/-- Helper: the final stage of `GenerateWeapon` after the enchantment loop,
stated over the loop's inputs: the finished weapon carries exactly
`min (numEnchantmentsFor rarity) MaxEnchantments` enchantments. -/
theorem weapon_final_count (maxE : Int) (el : ElementalType)
    (rar : WeaponRarity) (w1 : Weapon) (g1 : GRand) (we : Weapon × GRand)
    (hM : 0 ≤ maxE) (hw : w1.enchantments = []) (hr : w1.rarity = rar)
    (hwe : we = enchantLoop maxE el (min (numEnchantmentsFor rar) maxE).toNat (w1, g1)) :
    (({ we.1 with goldValue := calculateWeaponValue we.1 } : Weapon).enchantments.length : Int)
      = min (numEnchantmentsFor
          ({ we.1 with goldValue := calculateWeaponValue we.1 } : Weapon).rarity) maxE ∧
    (({ we.1 with goldValue := calculateWeaponValue we.1 } : Weapon).enchantments.length : Int)
      ≤ maxE := by
  have hproj1 :
      ({ we.1 with goldValue := calculateWeaponValue we.1 } : Weapon).enchantments
        = we.1.enchantments := rfl
  have hproj2 :
      ({ we.1 with goldValue := calculateWeaponValue we.1 } : Weapon).rarity
        = we.1.rarity := rfl
  have hminn : (0 : Int) ≤ min (numEnchantmentsFor rar) maxE :=
    le_min (numEnchantmentsFor_nonneg rar) hM
  have hcast : ((min (numEnchantmentsFor rar) maxE).toNat : Int)
      = min (numEnchantmentsFor rar) maxE := Int.toNat_of_nonneg hminn
  have hloop := enchantLoop_spec maxE el (min (numEnchantmentsFor rar) maxE).toNat w1 g1
    (by rw [hw]; simp only [List.length_nil, Nat.cast_zero, zero_add]; rw [hcast]; exact min_le_right _ _)
  rw [hproj1, hproj2, hwe]
  constructor
  · rw [hloop.1, hloop.2, hw, hr]
    push_cast
    rw [hcast]
    simp
  · rw [hloop.1, hw]
    simp only [List.length_nil, Nat.zero_add, Nat.cast_zero]
    rw [hcast]
    exact min_le_right _ _

/-- Claim C8: every weapon returned by `GenerateWeapon` carries exactly
`min (rarity count, MaxEnchantments)` enchantments, where the rarity count
is Legendary 4, Epic 3, Rare 2, Uncommon 1, Common 0; in particular the
count never exceeds `MaxEnchantments` (assumed non-negative, its declared
domain). -/
theorem C8_enchantment_count (cfg : WeaponConfig) (type : WeaponType)
    (level : Int) (g : GRand) (hM : 0 ≤ cfg.maxEnchantments) :
    ((generateWeapon cfg type level g).1.enchantments.length : Int)
      = min (numEnchantmentsFor (generateWeapon cfg type level g).1.rarity)
          cfg.maxEnchantments ∧
    ((generateWeapon cfg type level g).1.enchantments.length : Int)
      ≤ cfg.maxEnchantments := by
  obtain ⟨hpe, hpr⟩ := calculateWeaponStats_preserves
    { weaponId := "WPN_" ++ toString (g.rand).1
      type := type
      rarity := (determineRarityDraw cfg (g.rand).2).1
      requiredLevel := level
      element := elementOfInt (((determineRarityDraw cfg (g.rand).2).2.randRange 0 7).1)
      weaponName := generateWeaponName type (determineRarityDraw cfg (g.rand).2).1
        (elementOfInt (((determineRarityDraw cfg (g.rand).2).2.randRange 0 7).1)) }
    level
  exact weapon_final_count cfg.maxEnchantments
    (elementOfInt (((determineRarityDraw cfg (g.rand).2).2.randRange 0 7).1))
    ((determineRarityDraw cfg (g.rand).2).1)
    (calculateWeaponStats
      { weaponId := "WPN_" ++ toString (g.rand).1
        type := type
        rarity := (determineRarityDraw cfg (g.rand).2).1
        requiredLevel := level
        element := elementOfInt (((determineRarityDraw cfg (g.rand).2).2.randRange 0 7).1)
        weaponName := generateWeaponName type (determineRarityDraw cfg (g.rand).2).1
          (elementOfInt (((determineRarityDraw cfg (g.rand).2).2.randRange 0 7).1)) }
      level)
    (((determineRarityDraw cfg (g.rand).2).2.randRange 0 7).2)
    _ hM hpe hpr rfl

/-- Witness for C8 at the header's default configuration and a concrete
global environment. -/
theorem C8_enchantment_count_witness :
    (0 : Int) ≤ ({} : WeaponConfig).maxEnchantments ∧
    (((generateWeapon {} .sword 1 genv0).1.enchantments.length : Int)
        = min (numEnchantmentsFor (generateWeapon {} .sword 1 genv0).1.rarity)
            ({} : WeaponConfig).maxEnchantments ∧
     ((generateWeapon {} .sword 1 genv0).1.enchantments.length : Int)
        ≤ ({} : WeaponConfig).maxEnchantments) :=
  ⟨by decide, C8_enchantment_count {} .sword 1 genv0 (by decide)⟩

/-! ## Claim C3 — grid layout -/

/-- A small concrete terrain configuration: `2 × 2` cells, one noise
octave. -/
def c3Cfg : TerrainConfig :=
  { terrainWidth := 2, terrainHeight := 2, noiseOctaves := 1 }

/-- Helper: each column of the fill loop holds exactly `n` cells. -/
theorem fillColumn_length (cfg : TerrainConfig) (x : Int) :
    ∀ (n : Nat) (y : Int) (g : GRand), (fillColumn cfg x n y g).1.length = n := by
  intro n
  induction n with
  | zero => intro y g; rfl
  | succ n ih => intro y g; simp [fillColumn, ih]

/-- Helper: within a column, position `k` holds the cell generated for
`(x, y + k)`. -/
theorem fillColumn_getD_height (cfg : TerrainConfig) (x : Int) :
    ∀ (n k : Nat) (y : Int) (g : GRand) (d : TerrainCell), k < n →
      ((fillColumn cfg x n y g).1.getD k d).height = getPerlinNoise cfg x (y + k) := by
  intro n
  induction n with
  | zero => intro k y g d hk; exact absurd hk (Nat.not_lt_zero k)
  | succ n ih =>
      intro k y g d hk
      cases k with
      | zero =>
          simp only [fillColumn]
          rw [List.getD_cons_zero]
          show getPerlinNoise cfg x y = _
          norm_num
      | succ k =>
          simp only [fillColumn]
          rw [List.getD_cons_succ]
          rw [ih k (y + 1) _ d (by omega)]
          congr 1
          push_cast
          ring

/-- Helper: the fill loop produces `n * TerrainHeight` cells. -/
theorem fillGrid_length (cfg : TerrainConfig) :
    ∀ (n : Nat) (x : Int) (g : GRand),
      (fillGrid cfg n x g).1.length = n * cfg.terrainHeight.toNat := by
  intro n
  induction n with
  | zero => intro x g; simp [fillGrid]
  | succ n ih =>
      intro x g
      simp only [fillGrid, List.length_append, fillColumn_length, ih]
      ring

/-- Helper: in the filled grid, flat index `a * TerrainHeight + b` holds the
cell generated for coordinate `(x + a, b)` — the column-major layout. -/
theorem fillGrid_getD_height (cfg : TerrainConfig) :
    ∀ (n a b : Nat) (x : Int) (g : GRand) (d : TerrainCell),
      a < n → b < cfg.terrainHeight.toNat →
      ((fillGrid cfg n x g).1.getD (a * cfg.terrainHeight.toNat + b) d).height
        = getPerlinNoise cfg (x + a) b := by
  intro n
  induction n with
  | zero => intro a b x g d ha hb; exact absurd ha (Nat.not_lt_zero a)
  | succ n ih =>
      intro a b x g d ha hb
      cases a with
      | zero =>
          simp only [fillGrid, Nat.zero_mul, Nat.zero_add]
          have hcl : b < (fillColumn cfg x cfg.terrainHeight.toNat 0 g).1.length := by
            rw [fillColumn_length]; exact hb
          rw [List.getD_append _ _ _ _ hcl]
          rw [fillColumn_getD_height cfg x cfg.terrainHeight.toNat b 0 g d hb]
          norm_num
      | succ a =>
          simp only [fillGrid]
          have hlen : (fillColumn cfg x cfg.terrainHeight.toNat 0 g).1.length
              = cfg.terrainHeight.toNat := fillColumn_length cfg x _ 0 g
          have hidx : (a + 1) * cfg.terrainHeight.toNat + b
              = a * cfg.terrainHeight.toNat + b + cfg.terrainHeight.toNat := by ring
          have hge : (fillColumn cfg x cfg.terrainHeight.toNat 0 g).1.length
              ≤ (a + 1) * cfg.terrainHeight.toNat + b := by
            rw [hlen, hidx]; exact Nat.le_add_left _ _
          rw [List.getD_append_right _ _ _ _ hge, hlen, hidx, Nat.add_sub_cancel]
          rw [ih a b (x + 1) _ d (by omega) hb]
          congr 1
          push_cast
          ring

/-- Claim C3, counterexample: on a `2 × 2` grid, the cell at the claimed
row-major index `y*width + x = 1` for `(x, y) = (1, 0)` is in fact the cell
generated for coordinate `(0, 1)` — its height is `GetPerlinNoise(0, 1)`,
which differs from `GetPerlinNoise(1, 0)` — because the fill loop iterates
`X` outer / `Y` inner. -/
theorem C3_counterexample :
    (generateTerrain c3Cfg genv0).1.length = 4 ∧
    ((generateTerrain c3Cfg genv0).1.getD 1 {}).height = getPerlinNoise c3Cfg 0 1 ∧
    ((generateTerrain c3Cfg genv0).1.getD 1 {}).height ≠ getPerlinNoise c3Cfg 1 0 := by
  have hshape : (generateTerrain c3Cfg genv0).1
      = (fillGrid c3Cfg c3Cfg.terrainWidth.toNat 0 genv0).1 := rfl
  have hget := fillGrid_getD_height c3Cfg c3Cfg.terrainWidth.toNat 0 1 0 genv0
    ({} : TerrainCell) (by decide) (by decide)
  have hg : ((generateTerrain c3Cfg genv0).1.getD 1 ({} : TerrainCell)).height
      = getPerlinNoise c3Cfg 0 1 := by
    rw [hshape]
    simpa using hget
  have hne : getPerlinNoise c3Cfg 0 1 ≠ getPerlinNoise c3Cfg 1 0 :=
    of_decide_eq_true (by with_unfolding_all rfl)
  refine ⟨?_, hg, ?_⟩
  · rw [hshape, fillGrid_length]
    decide
  · rw [hg]
    exact hne

/-- Claim C3, amended: after `GenerateTerrain` the grid holds exactly
`width * height` cells, but stored column-major, not row-major: the cell
generated for coordinate `(x, y)` sits at index `x * height + y`
(equivalently, index `i` corresponds to `x = i / height`, `y = i % height`).
The three derived-map passes run on the just-emptied grid, so the whole
grid comes from the fill loop. -/
theorem C3_column_major (cfg : TerrainConfig) (g : GRand) (x y : Nat)
    (hx : x < cfg.terrainWidth.toNat) (hy : y < cfg.terrainHeight.toNat) :
    (generateTerrain cfg g).1.length
        = cfg.terrainWidth.toNat * cfg.terrainHeight.toNat ∧
    ((generateTerrain cfg g).1.getD (x * cfg.terrainHeight.toNat + y) {}).height
        = getPerlinNoise cfg x y := by
  have hshape : (generateTerrain cfg g).1 = (fillGrid cfg cfg.terrainWidth.toNat 0 g).1 := rfl
  constructor
  · rw [hshape]; exact fillGrid_length cfg _ 0 g
  · rw [hshape, fillGrid_getD_height cfg cfg.terrainWidth.toNat x y 0 g {} hx hy]
    norm_num

/-- Witness for C3 (amended) on the concrete `2 × 2` configuration at
`(x, y) = (1, 0)`: the cell for `(1, 0)` sits at column-major index
`1 * height + 0 = 2`. -/
theorem C3_column_major_witness :
    ((generateTerrain c3Cfg genv0).1.length
        = c3Cfg.terrainWidth.toNat * c3Cfg.terrainHeight.toNat ∧
     ((generateTerrain c3Cfg genv0).1.getD
          (1 * c3Cfg.terrainHeight.toNat + 0) {}).height
        = getPerlinNoise c3Cfg 1 0) :=
  C3_column_major c3Cfg genv0 1 0 (by decide) (by decide)

/-! ## Claim C4 — moisture vs height -/

/-- A concrete terrain configuration with a `2 × 1` grid and one octave. -/
def c4Cfg : TerrainConfig :=
  { terrainWidth := 2, terrainHeight := 1, noiseOctaves := 1 }

/-- A concrete global environment: raw draw 0 is `0`, all later draws are
`32767`. -/
def c4Env : GRand := ⟨fun n => if n = 0 then 0 else 32767, 0⟩

set_option maxRecDepth 4000 in
/-- Claim C4 fails on the code: in the generated grid, a cell with strictly
greater height can carry strictly greater moisture, because the fill loop
sets each cell's moisture to a fresh global `FMath::FRand()` draw —
independent of height — while the moisture-from-height pass
(`GenerateMoistureMap`) runs earlier on the just-emptied grid and touches
nothing. -/
theorem C4_moisture_not_derived_from_height :
    ((generateTerrain c4Cfg c4Env).1.getD 0 {}).height
        < ((generateTerrain c4Cfg c4Env).1.getD 1 {}).height ∧
    ((generateTerrain c4Cfg c4Env).1.getD 0 {}).moisture
        < ((generateTerrain c4Cfg c4Env).1.getD 1 {}).moisture :=
  of_decide_eq_true (by with_unfolding_all rfl)

/-! ## Claim C2 — building overlap -/

/-- A concrete trig interpretation for closed evaluations (the properties
proved below are independent of the trig values: co-located buildings stay
co-located under every interpretation). -/
def trig0 : Trig := ⟨fun _ => 1, fun _ => 0⟩

/-- A concrete city configuration: one district, two building attempts,
density 1 (every attempt is kept). -/
def c2Cfg : CityConfig :=
  { numberOfDistricts := 1, buildingsPerDistrict := 2, buildingDensity := 1 }

set_option maxRecDepth 8000 in
/-- Claim C2 fails on the code: `PopulateDistricts` never invokes the
collision check (`IsValidBuildingLocation` is defined but dead, and there is
no retry loop), and `GenerateRandomLocationInDistrict` returns one constant
point per district, so a city generated with two kept attempts in one
district holds two buildings at distance `0` — strictly less than the sum of
their (positive) half-footprints. -/
theorem C2_overlapping_buildings :
    ((generateCity trig0 c2Cfg).districts.getD 0 {}).buildings.length = 2 ∧
    buildingsOverlap
      (((generateCity trig0 c2Cfg).districts.getD 0 {}).buildings.getD 0 {})
      (((generateCity trig0 c2Cfg).districts.getD 0 {}).buildings.getD 1 {}) :=
  of_decide_eq_true (by with_unfolding_all rfl)

/-! ## Claim C9 — one location per district -/

/-- Helper: `GenerateRandomLocationInDistrict` reads only the district's
center and radius. -/
theorem generateRandomLocationInDistrict_congr (t : Trig) (seed : Int)
    (d1 d2 : District) (hc : d1.center = d2.center) (hr : d1.radius = d2.radius) :
    generateRandomLocationInDistrict t seed d1
      = generateRandomLocationInDistrict t seed d2 := by
  simp only [generateRandomLocationInDistrict, hc, hr]

/-- Helper: `GenerateBuilding` places the building exactly at the passed
location. -/
theorem generateBuilding_location (seed : Int) (type : BuildingType)
    (loc : Vec3) (i : Int) :
    (generateBuilding seed type loc i).location = loc := by
  unfold generateBuilding
  cases type <;> rfl

/-- Helper: the attempt loop never changes the district's center or
radius. -/
theorem populateAttempts_center_radius (t : Trig) (cfg : CityConfig) (i : Nat) :
    ∀ (n : Nat) (d : District) (rs : RStream),
      (populateAttempts t cfg i n d rs).1.center = d.center ∧
      (populateAttempts t cfg i n d rs).1.radius = d.radius := by
  intro n
  induction n with
  | zero => intro d rs; exact ⟨rfl, rfl⟩
  | succ n ih =>
      intro d rs
      simp only [populateAttempts]
      split_ifs <;> exact ih _ _

/-- Helper: every building present after the attempt loop was either already
there or sits at `GenerateRandomLocationInDistrict` of the district (whose
center and radius the loop preserves). -/
theorem populateAttempts_building_location (t : Trig) (cfg : CityConfig) (i : Nat) :
    ∀ (n : Nat) (d : District) (rs : RStream) (b : Building),
      b ∈ (populateAttempts t cfg i n d rs).1.buildings →
      b ∈ d.buildings ∨
        b.location = generateRandomLocationInDistrict t cfg.randomSeed d := by
  intro n
  induction n with
  | zero => intro d rs b hb; exact Or.inl hb
  | succ n ih =>
      intro d rs b hb
      simp only [populateAttempts] at hb
      split_ifs at hb <;>
        first
          | exact ih d _ b hb
          | exact (ih _ _ b hb).elim
              (fun hmem => (List.mem_append.mp hmem).elim Or.inl
                (fun h2 => Or.inr (by
                  rw [List.mem_singleton] at h2
                  subst h2
                  exact generateBuilding_location _ _ _ _)))
              (fun hloc => Or.inr (hloc.trans
                (generateRandomLocationInDistrict_congr t cfg.randomSeed _ d rfl rfl)))

/-- Helper: districts come out of the layout stage with empty building
lists. -/
theorem generateDistrictsLoop_buildings_empty (t : Trig) (cfg : CityConfig)
    (ab : ℚ) :
    ∀ (n : Nat) (i : Int) (rs : RStream) (d : District),
      d ∈ generateDistrictsLoop t cfg ab n i rs → d.buildings = [] := by
  intro n
  induction n with
  | zero => intro i rs d hd; cases hd
  | succ n ih =>
      intro i rs d hd
      simp only [generateDistrictsLoop] at hd
      rcases List.mem_cons.mp hd with h | h
      · subst h; rfl
      · exact ih _ _ d h

/-- Helper: every district of the populate stage's output is the attempt
loop's image of some input district. -/
theorem populateDistrictsLoop_mem (t : Trig) (cfg : CityConfig) :
    ∀ (ds : List District) (i : Nat) (rs : RStream) (d : District),
      d ∈ populateDistrictsLoop t cfg ds i rs →
      ∃ d0 ∈ ds, ∃ (j : Nat) (rs0 : RStream),
        d = (populateAttempts t cfg j cfg.buildingsPerDistrict.toNat d0 rs0).1 := by
  intro ds
  induction ds with
  | nil => intro i rs d hd; cases hd
  | cons d0 rest ih =>
      intro i rs d hd
      simp only [populateDistrictsLoop] at hd
      rcases List.mem_cons.mp hd with h | h
      · exact ⟨d0, List.mem_cons_self d0 rest, i, _, h⟩
      · rcases ih _ _ d h with ⟨e, he, j, rs0, hEq⟩
        exact ⟨e, List.mem_cons_of_mem d0 he, j, rs0, hEq⟩

/-- Claim C9: within one `GenerateCity` run with a fixed `RandomSeed`, every
building kept in a given district sits at the one point
`GenerateRandomLocationInDistrict` returns for that district — the function
re-seeds a fresh stream with the constant key `RandomSeed + 3` on every
call, so all calls for one district coincide. -/
theorem C9_one_location_per_district (t : Trig) (cfg : CityConfig)
    (d : District) (b : Building)
    (hd : d ∈ (generateCity t cfg).districts) (hb : b ∈ d.buildings) :
    b.location = generateRandomLocationInDistrict t cfg.randomSeed d := by
  have hds : (generateCity t cfg).districts
      = populateDistrictsLoop t cfg (generateDistricts t cfg) 0
          (RStream.init (cfg.randomSeed + 2)) := rfl
  rw [hds] at hd
  rcases populateDistrictsLoop_mem t cfg (generateDistricts t cfg) 0
      (RStream.init (cfg.randomSeed + 2)) d hd with ⟨d0, hd0, j, rs0, hEq⟩
  have hcr := populateAttempts_center_radius t cfg j
    cfg.buildingsPerDistrict.toNat d0 rs0
  have hemp : d0.buildings = [] := by
    have hgd : generateDistricts t cfg
        = generateDistrictsLoop t cfg (360 / (cfg.numberOfDistricts : ℚ))
            cfg.numberOfDistricts.toNat 0 (RStream.init cfg.randomSeed) := rfl
    rw [hgd] at hd0
    exact generateDistrictsLoop_buildings_empty t cfg _ _ _ _ d0 hd0
  subst hEq
  rcases populateAttempts_building_location t cfg j
      cfg.buildingsPerDistrict.toNat d0 rs0 b hb with hmem | hloc
  · rw [hemp] at hmem
    cases hmem
  · rw [hloc]
    exact generateRandomLocationInDistrict_congr t cfg.randomSeed d0 _
      hcr.1.symm hcr.2.symm

/-- A concrete city configuration for the C9 witness: one district, one kept
building attempt. -/
def c9Cfg : CityConfig :=
  { numberOfDistricts := 1, buildingsPerDistrict := 1, buildingDensity := 1 }

set_option maxRecDepth 8000 in
/-- Witness for C9 on a concrete city: the single kept building of the
single district sits at the district's
`GenerateRandomLocationInDistrict` point. -/
theorem C9_one_location_per_district_witness :
    (((generateCity trig0 c9Cfg).districts.getD 0 {}).buildings.getD 0 {}).location
      = generateRandomLocationInDistrict trig0 c9Cfg.randomSeed
          ((generateCity trig0 c9Cfg).districts.getD 0 {}) :=
  C9_one_location_per_district trig0 c9Cfg
    ((generateCity trig0 c9Cfg).districts.getD 0 {})
    (((generateCity trig0 c9Cfg).districts.getD 0 {}).buildings.getD 0 {})
    (by
      have h1 : 0 < (generateCity trig0 c9Cfg).districts.length :=
        of_decide_eq_true (by with_unfolding_all rfl)
      rw [List.getD_eq_getElem _ _ h1]
      exact List.getElem_mem h1)
    (by
      have h2 : 0 < ((generateCity trig0 c9Cfg).districts.getD 0 {}).buildings.length :=
        of_decide_eq_true (by with_unfolding_all rfl)
      rw [List.getD_eq_getElem _ _ h2]
      exact List.getElem_mem h2)
